import Mathlib

/-!
Shallow embedding of the multi-provider OAuth token broker.

Embedded source components:
* the token lifecycle engine of `BaseOAuthService` in
  `app/services/oauth_base.py` (`store_token`, `get_token`, `delete_token`,
  `handle_request_error`);
* the Twitter adapter's PKCE handling in
  `app/services/providers/twitter.py` (`generate_code_challenge`,
  the verifier registration done by `get_authorization_url`,
  `exchange_code_for_token`, `refresh_token`);
* the Google adapter's `exchange_code_for_token` and `refresh_token` in
  `app/services/providers/google.py`;
* the Sketchfab adapter's `exchange_code_for_token`, `refresh_token` and
  `get_user_info` in `app/services/providers/sketchfab.py`.

Python `dict`s are embedded as association lists over `String` keys with
replace-on-insert semantics; the wall clock (`time.time()`) is an explicit
`Int` parameter `now` (whole seconds); network calls are explicit oracles
(either a pre-fetched `HttpResponse` value for the `requests`-based
adapters, or a fetch function for the `requests_oauthlib`-based Twitter
adapter); Python exceptions become `Except` values.
-/

/-- Normalized token response, `OAuthTokenResponse` in `app/models/oauth.py`. -/
structure OAuthTokenResponse where
  accessToken : String
  tokenType : String
  expiresIn : Int
  refreshToken : Option String := none
  scope : Option String := none
  deriving DecidableEq, Repr

/-- Stored token record, `OAuthToken` in `app/models/oauth.py`. -/
structure OAuthToken where
  userId : String
  provider : String
  accessToken : String
  tokenType : String
  expiresIn : Int
  refreshToken : Option String
  scope : Option String
  expiresAt : Option Int
  deriving DecidableEq, Repr

/-- User info shape, `UserInfo` in `app/models/oauth.py` (raw payload kept abstract below). -/
structure UserInfo (raw : Type) where
  id : String
  username : String
  email : Option String
  profileUrl : Option String
  avatarUrl : Option String
  rawData : raw
  deriving Repr

/-- Minimal JSON value model for provider response bodies. -/
inductive Json where
  | null : Json
  | bool : Bool → Json
  | num : Int → Json
  | str : String → Json
  | arr : List Json → Json
  | obj : List (String × Json) → Json
  deriving Repr

/-- Lookup of `d.get(k)` / `d[k]` on a Python dict decoded from JSON
(association lookup on the object's fields; `none` on non-objects). -/
def jsonFieldGet : List (String × Json) → String → Option Json
  | [], _ => none
  | (k', v) :: rest, k => if k' = k then some v else jsonFieldGet rest k

/-- Lookup on a JSON value: its object fields when it is an object. -/
def jsonLookup : Json → String → Option Json
  | .obj fields, k => jsonFieldGet fields k
  | _, _ => none

/-- String-valued field access on a JSON object. -/
def jsonGetStr (j : Json) (k : String) : Option String :=
  match jsonLookup j k with
  | some (.str s) => some s
  | _ => none

/-- Integer-valued field access on a JSON object. -/
def jsonGetInt (j : Json) (k : String) : Option Int :=
  match jsonLookup j k with
  | some (.num n) => some n
  | _ => none

/-- Whether a key is present, Python's `k in d` / `"access_token" in token_data`. -/
def jsonHasKey (j : Json) (k : String) : Bool :=
  (jsonLookup j k).isSome

/-- The adapters' scope normalization: `scope = token.get("scope")`, and when it
is a list, join with spaces (`" ".join(scope)`); keeps a plain string as is.
Non-string list elements are outside the modeled fragment (the Python code
would raise a `TypeError` there, which no spec claim exercises). -/
def normalizeScope (j : Option Json) : Option String :=
  match j with
  | some (.str s) => some s
  | some (.arr l) =>
    some (String.intercalate " " (l.filterMap (fun x =>
      match x with
      | .str s => some s
      | _ => none)))
  | _ => none

/-- Association-list embedding of a Python `dict` keyed by strings: lookup. -/
def dictGet {α : Type} : List (String × α) → String → Option α
  | [], _ => none
  | (k', v) :: rest, k => if k' = k then some v else dictGet rest k

/-- Membership test, Python's `key in d`. -/
def dictContains {α : Type} (l : List (String × α)) (k : String) : Bool :=
  (dictGet l k).isSome

/-- Python `d[k] = v`: replace in place when the key is present, else append. -/
def dictSet {α : Type} (l : List (String × α)) (k : String) (v : α) :
    List (String × α) :=
  if dictContains l k then
    l.map (fun p => if p.1 = k then (k, v) else p)
  else
    l ++ [(k, v)]

/-- Python `del d[k]` (guarded by `if k in d` in `delete_token`). -/
def dictDel {α : Type} (l : List (String × α)) (k : String) :
    List (String × α) :=
  l.filter (fun p => p.1 != k)

/-- State of one `BaseOAuthService` instance: its provider name and the
in-memory token map `self._tokens`. -/
structure ServiceState where
  provider : String
  tokens : List (String × OAuthToken)
  deriving DecidableEq, Repr

/-- `BaseOAuthService.__init__`: `self._tokens = {}` (oauth_base.py lines 20-31). -/
def initServiceState (provider : String) : ServiceState :=
  ⟨provider, []⟩

/-- The token record built by `store_token`: `expires_at = int(time.time()) + token.expires_in`
and a full `OAuthToken` from the response fields (oauth_base.py lines 92-104). -/
def mkStoredToken (now : Int) (provider userId : String)
    (tok : OAuthTokenResponse) : OAuthToken :=
  { userId := userId
    provider := provider
    accessToken := tok.accessToken
    tokenType := tok.tokenType
    expiresIn := tok.expiresIn
    refreshToken := tok.refreshToken
    scope := tok.scope
    expiresAt := some (now + tok.expiresIn) }

/-- `BaseOAuthService.store_token` (oauth_base.py lines 84-108):
`self._tokens[f"{user_id}:{self.provider}"] = oauth_token`. -/
def store_token (now : Int) (st : ServiceState) (userId : String)
    (tok : OAuthTokenResponse) : ServiceState :=
  { st with
    tokens := dictSet st.tokens (userId ++ ":" ++ st.provider)
      (mkStoredToken now st.provider userId tok) }

/-- `BaseOAuthService.delete_token` (oauth_base.py lines 146-155). -/
def delete_token (st : ServiceState) (userId : String) : ServiceState :=
  { st with tokens := dictDel st.tokens (userId ++ ":" ++ st.provider) }

/-- Result of one `get_token` call: the returned record, the service state
afterwards, and the refresh tokens passed to `self.refresh_token` (in call
order), which makes "exactly one refresh call" statable. -/
structure GetTokenResult where
  result : Option OAuthToken
  state : ServiceState
  refreshCalls : List String
  deriving DecidableEq, Repr

/-- `BaseOAuthService.get_token` (oauth_base.py lines 110-144).

The adapter's `self.refresh_token` is the oracle `refresh` (an exception is
an `Except.error`).  Both guards use Python truthiness: `if token and
token.expires_at:` (line 124) treats `expires_at` equal to `None` or to `0`
as falsy, skipping the whole refresh block and falling through to
`return token` — mirrored by the `none` branch and the `e = 0` test; and
`if token.refresh_token:` (line 128) treats a `None` or empty-string
refresh token as falsy, taking the delete branch with no refresh call —
mirrored by the `none` branch and the `rt = ""` test. -/
def get_token (refresh : String → Except Unit OAuthTokenResponse) (now : Int)
    (st : ServiceState) (userId : String) : GetTokenResult :=
  let key := userId ++ ":" ++ st.provider
  match dictGet st.tokens key with
  | none => ⟨none, st, []⟩
  | some token =>
    match token.expiresAt with
    | none => ⟨some token, st, []⟩
    | some e =>
      if e = 0 then ⟨some token, st, []⟩
      else if e - now < 60 then
        match token.refreshToken with
        | some rt =>
          if rt = "" then ⟨none, delete_token st userId, []⟩
          else
            match refresh rt with
            | .ok newTok =>
              let st2 := store_token now st userId newTok
              ⟨dictGet st2.tokens key, st2, [rt]⟩
            | .error _ => ⟨none, delete_token st userId, [rt]⟩
        | none => ⟨none, delete_token st userId, []⟩
      else ⟨some token, st, []⟩

/-- One externally triggered operation on a service instance, for stating
invariants over all reachable token-store states.  `getTok` covers the
mutations `get_token` performs internally (refresh-and-store, delete). -/
inductive ServiceOp where
  | storeOp (now : Int) (userId : String) (tok : OAuthTokenResponse)
  | getOp (refresh : String → Except Unit OAuthTokenResponse) (now : Int)
      (userId : String)
  | deleteOp (userId : String)

/-- Apply one operation to a service state. -/
def applyOp (st : ServiceState) : ServiceOp → ServiceState
  | .storeOp now userId tok => store_token now st userId tok
  | .getOp refresh now userId => (get_token refresh now st userId).state
  | .deleteOp userId => delete_token st userId

/-- Run a sequence of operations from a given state. -/
def runOps (st : ServiceState) (ops : List ServiceOp) : ServiceState :=
  ops.foldl applyOp st

/-- Detail payload of a raised `fastapi.HTTPException`: either a dict
(`detail=error_data` / the PKCE error dict) or `detail=str(e)`. -/
inductive ErrDetail where
  | json : Json → ErrDetail
  | msg : String → ErrDetail
  deriving Repr

/-- A raised `HTTPException(status_code, detail)`. -/
structure HTTPError where
  statusCode : Nat
  detail : ErrDetail
  deriving Repr

/-- A provider HTTP response as seen by the `requests`-based adapters:
its status code, raw body text (`response.text`; `response.content` is
truthy exactly when this is nonempty), and the outcome of `response.json()`
(`some` when the body parses as JSON, `none` when parsing raises). -/
structure HttpResponse where
  status : Nat
  text : String
  json : Option Json
  deriving Repr

/-- `BaseOAuthService.handle_request_error` (oauth_base.py lines 157-177):
returns the provider's own status code, and the parsed body, falling back
to an `unknown_error` dict built from `response.text` when parsing raises. -/
def handle_request_error (r : HttpResponse) : Nat × Json :=
  match r.json with
  | some j => (r.status, j)
  | none =>
    (r.status, .obj [("error", .str "unknown_error"),
                     ("error_description", .str r.text)])

/-- Truthiness of a Python optional string (`if not code_verifier`,
`if state`): `None` and the empty string are falsy. -/
def strTruthy : Option String → Bool
  | none => false
  | some s => s != ""

/-- Adapter configuration fields relevant to the embedded branches. -/
structure AdapterConfig where
  clientId : String
  deriving DecidableEq, Repr

/-- The Twitter adapter's placeholder-credential test (twitter.py line 92):
`self.config["client_id"] == "your_twitter_client_id" or not self.config["client_id"]`. -/
def twitterPlaceholder (cfg : AdapterConfig) : Bool :=
  cfg.clientId == "your_twitter_client_id" || cfg.clientId == ""

/-- `TwitterOAuthService._get_mock_token` (twitter.py lines 249-262);
`now` stands for `int(time.time())`. -/
def twitterMockToken (now : Int) : OAuthTokenResponse :=
  { accessToken := "mock_twitter_access_token_" ++ toString now
    tokenType := "Bearer"
    expiresIn := 7200
    refreshToken := some ("mock_twitter_refresh_token_" ++ toString now)
    scope := some "tweet.read users.read offline.access" }

/-- The verifier registration performed by
`TwitterOAuthService.get_authorization_url` (twitter.py line 75):
`self._code_verifiers[state] = code_verifier`. -/
def twitterRegister (vs : List (String × String)) (state verifier : String) :
    List (String × String) :=
  dictSet vs state verifier

/-- The `HTTPException` raised when no code verifier is resolvable
(twitter.py lines 99-103). -/
def missingVerifierError : HTTPError :=
  ⟨400, .json (.obj [("error", .str "invalid_request"),
                     ("error_description", .str "Missing code_verifier")])⟩

/-- A token dict as returned by `requests_oauthlib`'s `fetch_token` /
`refresh_token`, or the raised exception's message. -/
def FetchOutcome : Type := Except String Json

/-- Conversion of a fetched token dict into an `OAuthTokenResponse`
(twitter.py lines 120-132 and 168-180): `token["access_token"]` and
`token["token_type"]` raise `KeyError` when absent or are rejected by the
response model when not strings (both surface as the generic 400 handler),
`expires_in` defaults to 7200, scope lists are space-joined.
`refreshDefault` is the second argument of `token.get("refresh_token", ...)`:
`none` in the exchange path, `some` of the original token in the refresh path. -/
def twitterTokenOf (d : Json) (refreshDefault : Option String) :
    Except Unit OAuthTokenResponse :=
  match jsonGetStr d "access_token", jsonGetStr d "token_type" with
  | some at_, some tt =>
    .ok { accessToken := at_
          tokenType := tt
          expiresIn := (jsonGetInt d "expires_in").getD 7200
          refreshToken :=
            match jsonGetStr d "refresh_token" with
            | some r => some r
            | none => refreshDefault
          scope := normalizeScope (jsonLookup d "scope") }
  | _, _ => .error ()

/-- Result of one Twitter code exchange: the returned token or raised
`HTTPException`, the verifier map afterwards, and the `(code, code_verifier)`
arguments of the `fetch_token` calls that were issued (making "exactly one
provider call with the stored verifier" statable). -/
structure TwitterExchangeResult where
  result : Except HTTPError OAuthTokenResponse
  verifiers : List (String × String)
  fetchCalls : List (String × String)
  deriving Repr

/-- `TwitterOAuthService.exchange_code_for_token` (twitter.py lines 79-137).

`fetchToken code verifier` is the network oracle for
`twitter.fetch_token(...)`.  The placeholder-credential branch returns mock
data before any PKCE handling; otherwise a missing verifier is resolved by
popping `self._code_verifiers[state]` (both `code_verifier` and `state` are
tested with Python truthiness), its absence raises the 400
`invalid_request` error, and any exception from the fetch or the conversion
is re-raised as a 400 with the stringified exception. -/
def twitterExchange (cfg : AdapterConfig)
    (fetchToken : String → String → FetchOutcome) (now : Int)
    (vs : List (String × String)) (code : String)
    (codeVerifier : Option String) (state : Option String) :
    TwitterExchangeResult :=
  if twitterPlaceholder cfg then
    ⟨.ok (twitterMockToken now), vs, []⟩
  else
    let resolved :=
      if !strTruthy codeVerifier then
        match state with
        | some s =>
          if s != "" && dictContains vs s then
            (dictGet vs s, dictDel vs s)
          else (codeVerifier, vs)
        | none => (codeVerifier, vs)
      else (codeVerifier, vs)
    match resolved.1 with
    | none => ⟨.error missingVerifierError, resolved.2, []⟩
    | some cv =>
      if cv = "" then ⟨.error missingVerifierError, resolved.2, []⟩
      else
        match fetchToken code cv with
        | .ok d =>
          match twitterTokenOf d none with
          | .ok tok => ⟨.ok tok, resolved.2, [(code, cv)]⟩
          | .error _ =>
            ⟨.error ⟨400, .msg "token conversion error"⟩, resolved.2,
              [(code, cv)]⟩
        | .error e => ⟨.error ⟨400, .msg e⟩, resolved.2, [(code, cv)]⟩

/-- `TwitterOAuthService.refresh_token` (twitter.py lines 139-185).
`fetchRefresh` is the network oracle for `twitter.refresh_token(...)`;
the original refresh token is supplied as the `token.get` default. -/
def twitterRefresh (cfg : AdapterConfig)
    (fetchRefresh : String → FetchOutcome) (now : Int)
    (refreshTok : String) : Except HTTPError OAuthTokenResponse :=
  if twitterPlaceholder cfg then
    .ok (twitterMockToken now)
  else
    match fetchRefresh refreshTok with
    | .ok d =>
      match twitterTokenOf d (some refreshTok) with
      | .ok tok => .ok tok
      | .error _ => .error ⟨400, .msg "token conversion error"⟩
    | .error e => .error ⟨400, .msg e⟩

/-- The Google adapter's placeholder-credential test (google.py line 85):
`self.config["client_id"] == "your_google_client_id_here" or not self.config["client_id"]`. -/
def googlePlaceholder (cfg : AdapterConfig) : Bool :=
  cfg.clientId == "your_google_client_id_here" || cfg.clientId == ""

/-- `GoogleOAuthService._get_mock_token` (google.py lines 307-321). -/
def googleMockToken (now : Int) : OAuthTokenResponse :=
  { accessToken := "mock_google_access_token_" ++ toString now
    tokenType := "Bearer"
    expiresIn := 3600
    refreshToken := some ("mock_google_refresh_token_" ++ toString now)
    scope := some "openid email profile" }

/-- Outcome of a `requests`-based adapter call: the normalized response, a
raised `HTTPException`, or an exception class the surrounding handler does
not turn into an `HTTPException` (e.g. an unparseable 4xx/5xx body, whose
`JSONDecodeError` escapes the Google adapter's `status_code != 200` branch). -/
inductive AdapterOutcome (α : Type) where
  | ok : α → AdapterOutcome α
  | httpError : HTTPError → AdapterOutcome α
  | unhandled : String → AdapterOutcome α
  deriving Repr

/-- The non-200 `error_data` of the Google adapter (google.py line 110 and
line 203): `response.json() if response.content else {"error": "Unknown error"}`. -/
def googleErrorData (r : HttpResponse) : Except String Json :=
  if r.text = "" then .ok (.obj [("error", .str "Unknown error")])
  else
    match r.json with
    | some j => .ok j
    | none => .error "JSONDecodeError"

/-- `GoogleOAuthService.exchange_code_for_token` on an already-delivered
provider response (google.py lines 63-170): a non-200 response raises
`HTTPException(400, error_data)` with a FIXED 400 status; a 200 response
missing `access_token` raises a 500; otherwise the normalized token is
built with `expires_in` defaulting to 3600 and the scope list joined.
An empty `access_token` raises a 500.  `now` feeds the mock branch. -/
def googleExchange (cfg : AdapterConfig) (now : Int) (r : HttpResponse) :
    AdapterOutcome OAuthTokenResponse :=
  if googlePlaceholder cfg then
    .ok (googleMockToken now)
  else if r.status != 200 then
    match googleErrorData r with
    | .ok errorData => .httpError ⟨400, .json errorData⟩
    | .error e => .unhandled e
  else
    match r.json with
    | none => .unhandled "JSONDecodeError"
    | some tokenData =>
      if !jsonHasKey tokenData "access_token" then
        .httpError ⟨500,
          .msg "Invalid token response from Google: missing access_token"⟩
      else
        match jsonGetStr tokenData "access_token",
              jsonGetStr tokenData "token_type" with
        | some at_, some tt =>
          if at_ = "" then
            .httpError ⟨500, .msg "Empty access token in response"⟩
          else
            .ok { accessToken := at_
                  tokenType := tt
                  expiresIn := (jsonGetInt tokenData "expires_in").getD 3600
                  refreshToken := jsonGetStr tokenData "refresh_token"
                  scope := normalizeScope (jsonLookup tokenData "scope") }
        | _, _ => .unhandled "non-string token field"

/-- `GoogleOAuthService.refresh_token` on an already-delivered provider
response (google.py lines 172-231): a non-200 response raises
`HTTPException(400, error_data)`; on success the normalized token's
`refresh_token` is always the ORIGINAL input token (google.py line 223,
"Google doesn't return a refresh token in the refresh flow"). -/
def googleRefresh (cfg : AdapterConfig) (now : Int) (r : HttpResponse)
    (refreshTok : String) : AdapterOutcome OAuthTokenResponse :=
  if googlePlaceholder cfg then
    .ok (googleMockToken now)
  else if r.status != 200 then
    match googleErrorData r with
    | .ok errorData => .httpError ⟨400, .json errorData⟩
    | .error e => .unhandled e
  else
    match r.json with
    | none => .unhandled "JSONDecodeError"
    | some tokenData =>
      match jsonGetStr tokenData "access_token",
            jsonGetStr tokenData "token_type" with
      | some at_, some tt =>
        .ok { accessToken := at_
              tokenType := tt
              expiresIn := (jsonGetInt tokenData "expires_in").getD 3600
              refreshToken := some refreshTok
              scope := normalizeScope (jsonLookup tokenData "scope") }
      | _, _ => .unhandled "missing or non-string token field"

/-- The Sketchfab adapter's placeholder-credential test (sketchfab.py line 56). -/
def sketchfabPlaceholder (cfg : AdapterConfig) : Bool :=
  cfg.clientId == "your_sketchfab_client_id" || cfg.clientId == ""

/-- `SketchfabOAuthService._get_mock_token` (sketchfab.py lines 162-175). -/
def sketchfabMockToken (now : Int) : OAuthTokenResponse :=
  { accessToken := "mock_access_token_" ++ toString now
    tokenType := "Bearer"
    expiresIn := 3600
    refreshToken := some ("mock_refresh_token_" ++ toString now)
    scope := some "read write" }

/-- Conversion of a 200-response body into the Sketchfab normalized token
(sketchfab.py lines 76-83 and 115-122): `access_token`, `token_type` and
`expires_in` are REQUIRED subscript accesses (a `KeyError` escapes the
function), while `refresh_token` and `scope` use `.get` with no default —
an omitted `refresh_token` yields `None`, not the original token. -/
def sketchfabTokenOf (tokenData : Json) : AdapterOutcome OAuthTokenResponse :=
  match jsonGetStr tokenData "access_token",
        jsonGetStr tokenData "token_type",
        jsonGetInt tokenData "expires_in" with
  | some at_, some tt, some ei =>
    .ok { accessToken := at_
          tokenType := tt
          expiresIn := ei
          refreshToken := jsonGetStr tokenData "refresh_token"
          scope := jsonGetStr tokenData "scope" }
  | _, _, _ => .unhandled "missing or non-string token field"

/-- `SketchfabOAuthService.exchange_code_for_token` on an already-delivered
provider response (sketchfab.py lines 45-83): the single POST's non-200
response is translated through `handle_request_error` into
`HTTPException(status_code, error_data)` carrying the provider's status. -/
def sketchfabExchange (cfg : AdapterConfig) (now : Int) (r : HttpResponse) :
    AdapterOutcome OAuthTokenResponse :=
  if sketchfabPlaceholder cfg then
    .ok (sketchfabMockToken now)
  else if r.status != 200 then
    let e := handle_request_error r
    .httpError ⟨e.1, .json e.2⟩
  else
    match r.json with
    | none => .unhandled "JSONDecodeError"
    | some tokenData => sketchfabTokenOf tokenData

/-- `SketchfabOAuthService.refresh_token` on an already-delivered provider
response (sketchfab.py lines 85-122): same error translation as the
exchange; note the `refresh_token` handling in `sketchfabTokenOf`. -/
def sketchfabRefresh (cfg : AdapterConfig) (now : Int) (r : HttpResponse)
    (_refreshTok : String) : AdapterOutcome OAuthTokenResponse :=
  if sketchfabPlaceholder cfg then
    .ok (sketchfabMockToken now)
  else if r.status != 200 then
    let e := handle_request_error r
    .httpError ⟨e.1, .json e.2⟩
  else
    match r.json with
    | none => .unhandled "JSONDecodeError"
    | some tokenData => sketchfabTokenOf tokenData

/-- `SketchfabOAuthService.get_user_info` on an already-delivered provider
response (sketchfab.py lines 124-160): non-200 responses go through
`handle_request_error`; a 200 response is projected into the `UserInfo`
shape (`uid`/`username` required, the rest optional). -/
def sketchfabUserInfo (cfg : AdapterConfig) (r : HttpResponse) :
    AdapterOutcome (UserInfo Json) :=
  if sketchfabPlaceholder cfg then
    .ok { id := "mock_user_123"
          username := "mock_sketchfab_user"
          email := some "mock_user@example.com"
          profileUrl := some "https://sketchfab.com/mock_user"
          avatarUrl := some "https://sketchfab.com/avatars/mock_user.jpg"
          rawData := .obj [("uid", .str "mock_user_123"),
                           ("username", .str "mock_sketchfab_user"),
                           ("email", .str "mock_user@example.com"),
                           ("profileUrl", .str "https://sketchfab.com/mock_user"),
                           ("avatar", .obj [("url",
                             .str "https://sketchfab.com/avatars/mock_user.jpg")])] }
  else if r.status != 200 then
    let e := handle_request_error r
    .httpError ⟨e.1, .json e.2⟩
  else
    match r.json with
    | none => .unhandled "JSONDecodeError"
    | some userData =>
      match jsonGetStr userData "uid", jsonGetStr userData "username" with
      | some uid, some uname =>
        .ok { id := uid
              username := uname
              email := jsonGetStr userData "email"
              profileUrl := jsonGetStr userData "profileUrl"
              avatarUrl :=
                match jsonLookup userData "avatar" with
                | some av => jsonGetStr av "url"
                | none => none
              rawData := userData }
      | _, _ => .unhandled "missing or non-string user field"

/-- Truncation to a 32-bit word. -/
def w32 (x : Nat) : Nat := x % 4294967296

/-- 32-bit right rotation (argument below 2^32). -/
def rotr32 (n x : Nat) : Nat := w32 ((x >>> n) ||| (x <<< (32 - n)))

/-- SHA-256 big sigma-0. -/
def bigS0 (x : Nat) : Nat := rotr32 2 x ^^^ rotr32 13 x ^^^ rotr32 22 x

/-- SHA-256 big sigma-1. -/
def bigS1 (x : Nat) : Nat := rotr32 6 x ^^^ rotr32 11 x ^^^ rotr32 25 x

/-- SHA-256 small sigma-0. -/
def smallS0 (x : Nat) : Nat := rotr32 7 x ^^^ rotr32 18 x ^^^ (x >>> 3)

/-- SHA-256 small sigma-1. -/
def smallS1 (x : Nat) : Nat := rotr32 17 x ^^^ rotr32 19 x ^^^ (x >>> 10)

/-- SHA-256 choice function. -/
def chV (x y z : Nat) : Nat := (x &&& y) ^^^ ((x ^^^ 4294967295) &&& z)

/-- SHA-256 majority function. -/
def majV (x y z : Nat) : Nat := (x &&& y) ^^^ (x &&& z) ^^^ (y &&& z)

/-- The 64 SHA-256 round constants (FIPS 180-4, in decimal). -/
def shaK : List Nat :=
  [1116352408, 1899447441, 3049323471, 3921009573, 961987163,
   1508970993, 2453635748, 2870763221, 3624381080, 310598401,
   607225278, 1426881987, 1925078388, 2162078206, 2614888103,
   3248222580, 3835390401, 4022224774, 264347078, 604807628,
   770255983, 1249150122, 1555081692, 1996064986, 2554220882,
   2821834349, 2952996808, 3210313671, 3336571891, 3584528711,
   113926993, 338241895, 666307205, 773529912, 1294757372,
   1396182291, 1695183700, 1986661051, 2177026350, 2456956037,
   2730485921, 2820302411, 3259730800, 3345764771, 3516065817,
   3600352804, 4094571909, 275423344, 430227734, 506948616,
   659060556, 883997877, 958139571, 1322822218, 1537002063,
   1747873779, 1955562222, 2024104815, 2227730452, 2361852424,
   2428436474, 2756734187, 3204031479, 3329325298]

/-- The SHA-256 initial hash state (FIPS 180-4, in decimal). -/
def shaH0 : List Nat :=
  [1779033703, 3144134277, 1013904242, 2773480762, 1359893119,
   2600822924, 528734635, 1541459225]

/-- Big-endian byte decomposition of `n` into `k` bytes. -/
def beBytes : Nat → Nat → List Nat
  | 0, _ => []
  | k + 1, n => beBytes k (n / 256) ++ [n % 256]

/-- SHA-256 padding: append `0x80`, zeros to 56 mod 64, and the bit length
as 8 big-endian bytes. -/
def padMessage (msg : List Nat) : List Nat :=
  let L := msg.length
  msg ++ [128] ++ List.replicate ((119 - L % 64) % 64) 0 ++ beBytes 8 (8 * L)

/-- Group bytes into big-endian 32-bit words. -/
def bytesToWords : List Nat → List Nat
  | a :: b :: c :: d :: rest =>
    (((a * 256 + b) * 256 + c) * 256 + d) :: bytesToWords rest
  | _ => []

/-- Split a byte list into 64-byte blocks (structural recursion on a fuel
bound so the definition reduces inside the kernel). -/
def chunks64Aux : Nat → List Nat → List (List Nat)
  | 0, _ => []
  | _, [] => []
  | fuel + 1, x :: xs => ((x :: xs).take 64) :: chunks64Aux fuel ((x :: xs).drop 64)

/-- Split a byte list into 64-byte blocks. -/
def chunks64 (l : List Nat) : List (List Nat) :=
  chunks64Aux l.length l

/-- The next message-schedule word from the words so far. -/
def nextScheduleWord (ws : List Nat) : Nat :=
  let i := ws.length
  w32 (smallS1 (ws.getD (i - 2) 0) + ws.getD (i - 7) 0 +
       smallS0 (ws.getD (i - 15) 0) + ws.getD (i - 16) 0)

/-- Extend the 16 block words by `n` more schedule words. -/
def extendSchedule : List Nat → Nat → List Nat
  | ws, 0 => ws
  | ws, n + 1 => extendSchedule (ws ++ [nextScheduleWord ws]) n

/-- The eight SHA-256 working registers. -/
structure ShaRegs where
  a : Nat
  b : Nat
  c : Nat
  d : Nat
  e : Nat
  f : Nat
  g : Nat
  h : Nat
  deriving Repr

/-- One SHA-256 compression round. -/
def shaRound (r : ShaRegs) (k w : Nat) : ShaRegs :=
  let t1 := w32 (r.h + bigS1 r.e + chV r.e r.f r.g + k + w)
  let t2 := w32 (bigS0 r.a + majV r.a r.b r.c)
  ⟨w32 (t1 + t2), r.a, r.b, r.c, w32 (r.d + t1), r.e, r.f, r.g⟩

/-- Fold the compression rounds over the schedule and round constants. -/
def compressRounds : List Nat → List Nat → ShaRegs → ShaRegs
  | w :: ws, k :: ks, r => compressRounds ws ks (shaRound r k w)
  | _, _, r => r

/-- Process one 64-byte block, updating the hash state. -/
def processBlock (h : List Nat) (block : List Nat) : List Nat :=
  let ws := extendSchedule (bytesToWords block) 48
  let r := compressRounds ws shaK
    ⟨h.getD 0 0, h.getD 1 0, h.getD 2 0, h.getD 3 0,
     h.getD 4 0, h.getD 5 0, h.getD 6 0, h.getD 7 0⟩
  [w32 (h.getD 0 0 + r.a), w32 (h.getD 1 0 + r.b),
   w32 (h.getD 2 0 + r.c), w32 (h.getD 3 0 + r.d),
   w32 (h.getD 4 0 + r.e), w32 (h.getD 5 0 + r.f),
   w32 (h.getD 6 0 + r.g), w32 (h.getD 7 0 + r.h)]

/-- SHA-256 of a byte sequence, as its 32-byte digest
(`hashlib.sha256(...).digest()`). -/
def sha256Bytes (msg : List Nat) : List Nat :=
  (((chunks64 (padMessage msg)).foldl processBlock shaH0).map (beBytes 4)).flatten

/-- UTF-8 encoding of one character (Python `str.encode("utf-8")`). -/
def utf8Char (c : Char) : List Nat :=
  let n := c.toNat
  if n < 128 then [n]
  else if n < 2048 then [192 + n / 64, 128 + n % 64]
  else if n < 65536 then [224 + n / 4096, 128 + n / 64 % 64, 128 + n % 64]
  else [240 + n / 262144, 128 + n / 4096 % 64, 128 + n / 64 % 64, 128 + n % 64]

/-- UTF-8 encoding of a string as a byte list. -/
def utf8Bytes (s : String) : List Nat :=
  (s.toList.map utf8Char).flatten

/-- The URL-safe base64 alphabet. -/
def b64Alphabet : List Char :=
  "ABCDEFGHIJKLMNOPQRSTUVWXYZabcdefghijklmnopqrstuvwxyz0123456789-_".toList

/-- Character for a 6-bit group. -/
def b64Char (n : Nat) : Char := b64Alphabet.getD n 'A'

/-- URL-safe base64 character stream WITH `=` padding, as
`base64.urlsafe_b64encode` produces. -/
def b64Groups : List Nat → List Char
  | a :: b :: c :: rest =>
    b64Char (a / 4) :: b64Char (a % 4 * 16 + b / 16) ::
      b64Char (b % 16 * 4 + c / 64) :: b64Char (c % 64) :: b64Groups rest
  | [a, b] =>
    [b64Char (a / 4), b64Char (a % 4 * 16 + b / 16), b64Char (b % 16 * 4), '=']
  | [a] => [b64Char (a / 4), b64Char (a % 4 * 16), '=', '=']
  | [] => []

/-- `base64.urlsafe_b64encode(...).decode("utf-8")`. -/
def urlsafeB64encode (bs : List Nat) : String := String.mk (b64Groups bs)

/-- Python `str.replace("=", "")`: drop every `=` character. -/
def stripEquals (s : String) : String :=
  String.mk (s.toList.filter (fun c => c != '='))

/-- `TwitterOAuthService.generate_code_challenge` (twitter.py lines 44-47):
URL-safe base64 of the SHA-256 digest of the UTF-8 verifier, with `=`
stripped by `replace`. -/
def generate_code_challenge (v : String) : String :=
  stripEquals (urlsafeB64encode (sha256Bytes (utf8Bytes v)))

/-- URL-safe base64 WITHOUT padding, written directly from the spec's words
("URL-safe base64 (no `=` padding) of SHA-256(verifier)"): the final
partial group simply emits no padding characters. -/
def b64GroupsNoPad : List Nat → List Char
  | a :: b :: c :: rest =>
    b64Char (a / 4) :: b64Char (a % 4 * 16 + b / 16) ::
      b64Char (b % 16 * 4 + c / 64) :: b64Char (c % 64) :: b64GroupsNoPad rest
  | [a, b] =>
    [b64Char (a / 4), b64Char (a % 4 * 16 + b / 16), b64Char (b % 16 * 4)]
  | [a] => [b64Char (a / 4), b64Char (a % 4 * 16)]
  | [] => []

/-- Modelled from the spec: the S256 challenge formula of section 4.2,
"Challenge = URL-safe base64 (no `=` padding) of SHA-256(verifier)". -/
def specS256Challenge (v : String) : String :=
  String.mk (b64GroupsNoPad (sha256Bytes (utf8Bytes v)))

theorem dictGet_nil {α : Type} (k : String) :
    dictGet ([] : List (String × α)) k = none := rfl

theorem dictGet_cons {α : Type} (k1 : String) (v1 : α)
    (t : List (String × α)) (k : String) :
    dictGet ((k1, v1) :: t) k = if k1 = k then some v1 else dictGet t k := rfl

theorem dictContains_cons {α : Type} (k1 : String) (v1 : α)
    (t : List (String × α)) (k : String) (hk : k1 ≠ k) :
    dictContains ((k1, v1) :: t) k = dictContains t k := by
  simp [dictContains, dictGet_cons, hk]

theorem dictGet_map_replace_self {α : Type} (l : List (String × α))
    (k : String) (v : α) (h : dictContains l k = true) :
    dictGet (l.map (fun p => if p.1 = k then (k, v) else p)) k = some v := by
  induction l with
  | nil => simp [dictContains, dictGet] at h
  | cons p t ih =>
    obtain ⟨k1, v1⟩ := p
    simp only [List.map_cons]
    by_cases hk : k1 = k
    · subst hk
      rw [if_pos rfl, dictGet_cons, if_pos rfl]
    · rw [if_neg (by simpa using hk), dictGet_cons, if_neg hk]
      exact ih (by rwa [dictContains_cons k1 v1 t k hk] at h)

theorem dictGet_append_of_none {α : Type} (l l2 : List (String × α))
    (k : String) (h : dictGet l k = none) :
    dictGet (l ++ l2) k = dictGet l2 k := by
  induction l with
  | nil => simp
  | cons p t ih =>
    obtain ⟨k1, v1⟩ := p
    by_cases hk : k1 = k
    · simp [dictGet, hk] at h
    · simp only [dictGet, hk, if_neg, List.cons_append] at h ⊢
      exact ih h

theorem dictGet_dictSet_self {α : Type} (l : List (String × α))
    (k : String) (v : α) : dictGet (dictSet l k v) k = some v := by
  by_cases h : dictContains l k = true
  · simp only [dictSet, h, if_true]
    exact dictGet_map_replace_self l k v h
  · have hn : dictGet l k = none := by
      rcases hg : dictGet l k with _ | w
      · rfl
      · simp [dictContains, hg] at h
    simp only [dictSet, h, if_false, Bool.false_eq_true]
    rw [dictGet_append_of_none l _ k hn]
    simp [dictGet]

theorem dictGet_dictDel_self {α : Type} (l : List (String × α))
    (k : String) : dictGet (dictDel l k) k = none := by
  induction l with
  | nil => rfl
  | cons p t ih =>
    obtain ⟨k1, v1⟩ := p
    by_cases hk : k1 = k
    · simpa [dictDel, hk] using ih
    · simpa [dictDel, dictGet, hk] using ih

theorem dictContains_eq_false_iff_not_mem {α : Type} (l : List (String × α))
    (k : String) : dictContains l k = false ↔ k ∉ l.map Prod.fst := by
  induction l with
  | nil => simp [dictContains, dictGet]
  | cons p t ih =>
    obtain ⟨k1, v1⟩ := p
    by_cases hk : k1 = k
    · subst hk
      simp [dictContains, dictGet_cons]
    · rw [dictContains_cons k1 v1 t k hk]
      simp only [List.map_cons, List.mem_cons, not_or, ih]
      constructor
      · exact fun hm => ⟨fun hq => hk hq.symm, hm⟩
      · exact fun hm => hm.2

theorem nodup_keys_dictSet {α : Type} (l : List (String × α)) (k : String)
    (v : α) (h : (l.map Prod.fst).Nodup) :
    ((dictSet l k v).map Prod.fst).Nodup := by
  by_cases hc : dictContains l k = true
  · simp only [dictSet, hc, if_true]
    have heq : (l.map (fun p => if p.1 = k then (k, v) else p)).map Prod.fst =
        l.map Prod.fst := by
      rw [List.map_map]
      apply List.map_congr_left
      intro p _
      by_cases hp : p.1 = k
      · simp [hp]
      · simp [hp]
    rw [heq]
    exact h
  · have hc' : dictContains l k = false := by
      revert hc
      cases dictContains l k <;> simp
    have hnotin : k ∉ l.map Prod.fst :=
      (dictContains_eq_false_iff_not_mem l k).mp hc'
    simp only [dictSet, hc', Bool.false_eq_true, if_false, List.map_append,
      List.map_cons, List.map_nil]
    rw [List.nodup_append]
    refine ⟨h, List.nodup_singleton k, ?_⟩
    intro a ha hb
    rw [List.mem_singleton] at hb
    exact hnotin (hb ▸ ha)

theorem nodup_keys_dictDel {α : Type} (l : List (String × α)) (k : String)
    (h : (l.map Prod.fst).Nodup) : ((dictDel l k).map Prod.fst).Nodup :=
  h.sublist (List.Sublist.map Prod.fst (List.filter_sublist l))

theorem store_token_lookup (now : Int) (st : ServiceState) (userId : String)
    (tok : OAuthTokenResponse) :
    dictGet (store_token now st userId tok).tokens
        (userId ++ ":" ++ st.provider) =
      some (mkStoredToken now st.provider userId tok) :=
  dictGet_dictSet_self st.tokens (userId ++ ":" ++ st.provider)
    (mkStoredToken now st.provider userId tok)

theorem get_token_of_absent (refresh : String → Except Unit OAuthTokenResponse)
    (now : Int) (st : ServiceState) (userId : String)
    (h : dictGet st.tokens (userId ++ ":" ++ st.provider) = none) :
    get_token refresh now st userId = ⟨none, st, []⟩ := by
  simp only [get_token, h]

theorem get_token_of_no_expiry
    (refresh : String → Except Unit OAuthTokenResponse) (now : Int)
    (st : ServiceState) (userId : String) (t : OAuthToken)
    (h : dictGet st.tokens (userId ++ ":" ++ st.provider) = some t)
    (he : t.expiresAt = none) :
    get_token refresh now st userId = ⟨some t, st, []⟩ := by
  simp only [get_token, h, he]

theorem get_token_of_zero_expiry
    (refresh : String → Except Unit OAuthTokenResponse) (now : Int)
    (st : ServiceState) (userId : String) (t : OAuthToken)
    (h : dictGet st.tokens (userId ++ ":" ++ st.provider) = some t)
    (he : t.expiresAt = some 0) :
    get_token refresh now st userId = ⟨some t, st, []⟩ := by
  simp [get_token, h, he]

theorem get_token_of_fresh
    (refresh : String → Except Unit OAuthTokenResponse) (now : Int)
    (st : ServiceState) (userId : String) (t : OAuthToken) (e : Int)
    (h : dictGet st.tokens (userId ++ ":" ++ st.provider) = some t)
    (he : t.expiresAt = some e) (hw : ¬ e - now < 60) :
    get_token refresh now st userId = ⟨some t, st, []⟩ := by
  by_cases hz : e = 0
  · subst hz
    exact get_token_of_zero_expiry refresh now st userId t h he
  · simp only [get_token, h, he, if_neg hz, if_neg hw]

theorem get_token_of_window_no_refresh_token
    (refresh : String → Except Unit OAuthTokenResponse) (now : Int)
    (st : ServiceState) (userId : String) (t : OAuthToken) (e : Int)
    (h : dictGet st.tokens (userId ++ ":" ++ st.provider) = some t)
    (he : t.expiresAt = some e) (hz : e ≠ 0) (hw : e - now < 60)
    (hr : t.refreshToken = none) :
    get_token refresh now st userId = ⟨none, delete_token st userId, []⟩ := by
  simp only [get_token, h, he, if_neg hz, if_pos hw, hr]

theorem get_token_of_window_empty_refresh_token
    (refresh : String → Except Unit OAuthTokenResponse) (now : Int)
    (st : ServiceState) (userId : String) (t : OAuthToken) (e : Int)
    (h : dictGet st.tokens (userId ++ ":" ++ st.provider) = some t)
    (he : t.expiresAt = some e) (hz : e ≠ 0) (hw : e - now < 60)
    (hr : t.refreshToken = some "") :
    get_token refresh now st userId = ⟨none, delete_token st userId, []⟩ := by
  simp only [get_token, h, he, if_neg hz, if_pos hw, hr]
  simp

theorem get_token_of_window_refresh_ok
    (refresh : String → Except Unit OAuthTokenResponse) (now : Int)
    (st : ServiceState) (userId : String) (t : OAuthToken) (e : Int)
    (rt : String) (newTok : OAuthTokenResponse)
    (h : dictGet st.tokens (userId ++ ":" ++ st.provider) = some t)
    (he : t.expiresAt = some e) (hz : e ≠ 0) (hw : e - now < 60)
    (hr : t.refreshToken = some rt) (hne : rt ≠ "")
    (hok : refresh rt = .ok newTok) :
    get_token refresh now st userId =
      ⟨some (mkStoredToken now st.provider userId newTok),
        store_token now st userId newTok, [rt]⟩ := by
  simp only [get_token, h, he, if_neg hz, if_pos hw, hr, if_neg hne, hok]
  rw [store_token_lookup]

theorem get_token_of_window_refresh_error
    (refresh : String → Except Unit OAuthTokenResponse) (now : Int)
    (st : ServiceState) (userId : String) (t : OAuthToken) (e : Int)
    (rt : String)
    (h : dictGet st.tokens (userId ++ ":" ++ st.provider) = some t)
    (he : t.expiresAt = some e) (hz : e ≠ 0) (hw : e - now < 60)
    (hr : t.refreshToken = some rt) (hne : rt ≠ "")
    (herr : refresh rt = .error ()) :
    get_token refresh now st userId =
      ⟨none, delete_token st userId, [rt]⟩ := by
  simp only [get_token, h, he, if_neg hz, if_pos hw, hr, if_neg hne, herr]

theorem nodup_keys_get_token
    (refresh : String → Except Unit OAuthTokenResponse) (now : Int)
    (st : ServiceState) (userId : String)
    (h : (st.tokens.map Prod.fst).Nodup) :
    (((get_token refresh now st userId).state).tokens.map Prod.fst).Nodup := by
  rcases hg : dictGet st.tokens (userId ++ ":" ++ st.provider) with _ | t
  · rw [get_token_of_absent refresh now st userId hg]
    exact h
  · rcases ht : t.expiresAt with _ | e
    · rw [get_token_of_no_expiry refresh now st userId t hg ht]
      exact h
    · by_cases hz : e = 0
      · subst hz
        rw [get_token_of_zero_expiry refresh now st userId t hg ht]
        exact h
      · by_cases hw : e - now < 60
        · rcases hr : t.refreshToken with _ | rt
          · rw [get_token_of_window_no_refresh_token refresh now st userId t e
              hg ht hz hw hr]
            exact nodup_keys_dictDel st.tokens _ h
          · by_cases hrtE : rt = ""
            · subst hrtE
              rw [get_token_of_window_empty_refresh_token refresh now st
                userId t e hg ht hz hw hr]
              exact nodup_keys_dictDel st.tokens _ h
            · rcases hre : refresh rt with u | nt
              · cases u
                rw [get_token_of_window_refresh_error refresh now st userId t
                  e rt hg ht hz hw hr hrtE hre]
                exact nodup_keys_dictDel st.tokens _ h
              · rw [get_token_of_window_refresh_ok refresh now st userId t e
                  rt nt hg ht hz hw hr hrtE hre]
                exact nodup_keys_dictSet st.tokens _ _ h
        · rw [get_token_of_fresh refresh now st userId t e hg ht hw]
          exact h

theorem nodup_keys_applyOp (st : ServiceState) (op : ServiceOp)
    (h : (st.tokens.map Prod.fst).Nodup) :
    ((applyOp st op).tokens.map Prod.fst).Nodup := by
  cases op with
  | storeOp now userId tok => exact nodup_keys_dictSet st.tokens _ _ h
  | getOp refresh now userId => exact nodup_keys_get_token refresh now st userId h
  | deleteOp userId => exact nodup_keys_dictDel st.tokens _ h

theorem nodup_keys_runOps (ops : List ServiceOp) (st : ServiceState)
    (h : (st.tokens.map Prod.fst).Nodup) :
    ((runOps st ops).tokens.map Prod.fst).Nodup := by
  induction ops generalizing st with
  | nil => exact h
  | cons op rest ih => exact ih (applyOp st op) (nodup_keys_applyOp st op h)

/-- C1 counterexample: the claim fails as stated.  A reachable stored record
(stored at `now = 100` from a response with `expires_in = -100`) has absolute
expiry `0`, already past `now = 100`, and carries a refresh token, yet
`get_token` performs no refresh call, leaves the store untouched and returns
the stale record — because the Python guard `if token and token.expires_at:`
treats the integer `0` as falsy.  The refresh oracle here would even
succeed if it were called. -/
theorem c1_zero_expiry_counterexample :
    (mkStoredToken 100 "google" "u1"
        ⟨"a0", "Bearer", -100, some "r0", none⟩).expiresAt = some 0 ∧
    (0 : Int) - 100 < 60 ∧
    dictGet (store_token 100 (initServiceState "google") "u1"
        ⟨"a0", "Bearer", -100, some "r0", none⟩).tokens "u1:google" =
      some (mkStoredToken 100 "google" "u1"
        ⟨"a0", "Bearer", -100, some "r0", none⟩) ∧
    get_token (fun _ => .ok ⟨"aNew", "Bearer", 3600, some "rNew", none⟩) 100
        (store_token 100 (initServiceState "google") "u1"
          ⟨"a0", "Bearer", -100, some "r0", none⟩) "u1" =
      ⟨some (mkStoredToken 100 "google" "u1"
          ⟨"a0", "Bearer", -100, some "r0", none⟩),
        store_token 100 (initServiceState "google") "u1"
          ⟨"a0", "Bearer", -100, some "r0", none⟩, []⟩ := by
  refine ⟨rfl, by decide, rfl, ?_⟩
  decide

/-- C1 (amended): for every stored record whose absolute expiry is within 60
seconds of now (or already past) and whose stored expiry timestamp is
nonzero, `get_token` makes exactly one refresh call when a truthy
(nonempty) refresh token is present: on success it returns the newly stored
record (reflecting the new access token) with the store updated, on any
refresh error it deletes the record and returns none; and when the record
has no truthy refresh token (the field is `None` or the empty string, both
falsy under `if token.refresh_token:`), it deletes the record, returns none
and makes no refresh call. -/
theorem c1_near_expiry_refresh_behavior
    (refresh : String → Except Unit OAuthTokenResponse) (now : Int)
    (st : ServiceState) (userId : String) (t : OAuthToken) (e : Int)
    (hmem : dictGet st.tokens (userId ++ ":" ++ st.provider) = some t)
    (hexp : t.expiresAt = some e) (hnz : e ≠ 0) (hwin : e - now < 60) :
    (t.refreshToken = none →
      get_token refresh now st userId = ⟨none, delete_token st userId, []⟩) ∧
    (t.refreshToken = some "" →
      get_token refresh now st userId = ⟨none, delete_token st userId, []⟩) ∧
    (∀ rt : String, t.refreshToken = some rt → rt ≠ "" →
      (get_token refresh now st userId).refreshCalls = [rt] ∧
      (∀ newTok : OAuthTokenResponse, refresh rt = .ok newTok →
        get_token refresh now st userId =
          ⟨some (mkStoredToken now st.provider userId newTok),
            store_token now st userId newTok, [rt]⟩) ∧
      (refresh rt = .error () →
        get_token refresh now st userId =
          ⟨none, delete_token st userId, [rt]⟩)) := by
  refine ⟨?_, ?_, ?_⟩
  · intro hr
    exact get_token_of_window_no_refresh_token refresh now st userId t e
      hmem hexp hnz hwin hr
  · intro hr
    exact get_token_of_window_empty_refresh_token refresh now st userId t e
      hmem hexp hnz hwin hr
  · intro rt hr hne
    refine ⟨?_, ?_, ?_⟩
    · rcases hre : refresh rt with u | nt
      · cases u
        rw [get_token_of_window_refresh_error refresh now st userId t e rt
          hmem hexp hnz hwin hr hne hre]
      · rw [get_token_of_window_refresh_ok refresh now st userId t e rt nt
          hmem hexp hnz hwin hr hne hre]
    · intro nt hok
      exact get_token_of_window_refresh_ok refresh now st userId t e rt nt
        hmem hexp hnz hwin hr hne hok
    · intro herr
      exact get_token_of_window_refresh_error refresh now st userId t e rt
        hmem hexp hnz hwin hr hne herr

/-- Witness for C1 (amended), at a concrete near-expiry stored record with a
nonempty refresh token and a succeeding refresh oracle. -/
theorem c1_near_expiry_refresh_behavior_witness :
    ((mkStoredToken 0 "google" "u1"
        ⟨"a1", "Bearer", 30, some "r1", none⟩).refreshToken = none →
      get_token (fun _ => .ok ⟨"a2", "Bearer", 3600, some "r2", none⟩) 0
          (store_token 0 (initServiceState "google") "u1"
            ⟨"a1", "Bearer", 30, some "r1", none⟩) "u1" =
        ⟨none, delete_token (store_token 0 (initServiceState "google") "u1"
            ⟨"a1", "Bearer", 30, some "r1", none⟩) "u1", []⟩) ∧
    ((mkStoredToken 0 "google" "u1"
        ⟨"a1", "Bearer", 30, some "r1", none⟩).refreshToken = some "" →
      get_token (fun _ => .ok ⟨"a2", "Bearer", 3600, some "r2", none⟩) 0
          (store_token 0 (initServiceState "google") "u1"
            ⟨"a1", "Bearer", 30, some "r1", none⟩) "u1" =
        ⟨none, delete_token (store_token 0 (initServiceState "google") "u1"
            ⟨"a1", "Bearer", 30, some "r1", none⟩) "u1", []⟩) ∧
    (∀ rt : String,
      (mkStoredToken 0 "google" "u1"
          ⟨"a1", "Bearer", 30, some "r1", none⟩).refreshToken = some rt →
      rt ≠ "" →
      (get_token (fun _ => .ok ⟨"a2", "Bearer", 3600, some "r2", none⟩) 0
          (store_token 0 (initServiceState "google") "u1"
            ⟨"a1", "Bearer", 30, some "r1", none⟩) "u1").refreshCalls = [rt] ∧
      (∀ newTok : OAuthTokenResponse,
        (fun (_ : String) =>
          (Except.ok ⟨"a2", "Bearer", 3600, some "r2", none⟩ :
            Except Unit OAuthTokenResponse)) rt = .ok newTok →
        get_token (fun _ => .ok ⟨"a2", "Bearer", 3600, some "r2", none⟩) 0
            (store_token 0 (initServiceState "google") "u1"
              ⟨"a1", "Bearer", 30, some "r1", none⟩) "u1" =
          ⟨some (mkStoredToken 0
              (initServiceState "google").provider "u1" newTok),
            store_token 0 (store_token 0 (initServiceState "google") "u1"
              ⟨"a1", "Bearer", 30, some "r1", none⟩) "u1" newTok, [rt]⟩) ∧
      ((fun (_ : String) =>
          (Except.ok ⟨"a2", "Bearer", 3600, some "r2", none⟩ :
            Except Unit OAuthTokenResponse)) rt = .error () →
        get_token (fun _ => .ok ⟨"a2", "Bearer", 3600, some "r2", none⟩) 0
            (store_token 0 (initServiceState "google") "u1"
              ⟨"a1", "Bearer", 30, some "r1", none⟩) "u1" =
          ⟨none, delete_token (store_token 0 (initServiceState "google") "u1"
              ⟨"a1", "Bearer", 30, some "r1", none⟩) "u1", [rt]⟩)) :=
  c1_near_expiry_refresh_behavior
    (fun _ => .ok ⟨"a2", "Bearer", 3600, some "r2", none⟩) 0
    (store_token 0 (initServiceState "google") "u1"
      ⟨"a1", "Bearer", 30, some "r1", none⟩)
    "u1" (mkStoredToken 0 "google" "u1" ⟨"a1", "Bearer", 30, some "r1", none⟩)
    30 (by decide) rfl (by decide) (by decide)

/-- C2: for every stored record whose absolute expiry is more than 60
seconds after now, `get_token` returns that record unchanged, performs no
refresh call, and leaves the token store unmodified. -/
theorem c2_fresh_record_returned_unchanged
    (refresh : String → Except Unit OAuthTokenResponse) (now : Int)
    (st : ServiceState) (userId : String) (t : OAuthToken) (e : Int)
    (hmem : dictGet st.tokens (userId ++ ":" ++ st.provider) = some t)
    (hexp : t.expiresAt = some e) (hfresh : 60 < e - now) :
    get_token refresh now st userId = ⟨some t, st, []⟩ := by
  by_cases hz : e = 0
  · subst hz
    exact get_token_of_zero_expiry refresh now st userId t hmem hexp
  · exact get_token_of_fresh refresh now st userId t e hmem hexp (by omega)

/-- Witness for C2 at a concrete record expiring 3600 seconds after now. -/
theorem c2_fresh_record_returned_unchanged_witness :
    get_token (fun _ => .error ()) 0
        (store_token 0 (initServiceState "google") "u1"
          ⟨"a1", "Bearer", 3600, some "r1", none⟩) "u1" =
      ⟨some (mkStoredToken 0 "google" "u1"
          ⟨"a1", "Bearer", 3600, some "r1", none⟩),
        store_token 0 (initServiceState "google") "u1"
          ⟨"a1", "Bearer", 3600, some "r1", none⟩, []⟩ :=
  c2_fresh_record_returned_unchanged (fun _ => .error ()) 0
    (store_token 0 (initServiceState "google") "u1"
      ⟨"a1", "Bearer", 3600, some "r1", none⟩)
    "u1"
    (mkStoredToken 0 "google" "u1" ⟨"a1", "Bearer", 3600, some "r1", none⟩)
    3600 (by decide) rfl (by decide)

/-- C3 counterexample: the claim fails as stated.  For the valid normalized
response with `expires_in = 30` (below the 60-second refresh window),
`store_token` followed immediately by `get_token` does not return a record
with the stored tokens: the refresh path runs immediately (one refresh call
with "r0"), and since the refresh here fails, the record is deleted and
`get_token` returns none. -/
theorem c3_short_expiry_counterexample :
    get_token (fun _ => .error ()) 0
        (store_token 0 (initServiceState "google") "u1"
          ⟨"tok0", "Bearer", 30, some "r0", none⟩) "u1" =
      ⟨none, initServiceState "google", ["r0"]⟩ := by
  decide

/-- C3 (amended): for every valid user id, provider and normalized token
response whose `expires_in` is at least the 60-second refresh window,
`store_token` followed immediately by `get_token` for the same key returns
a record whose access token and refresh token equal those of the stored
response. -/
theorem c3_store_then_get_roundtrip
    (refresh : String → Except Unit OAuthTokenResponse) (now : Int)
    (st : ServiceState) (userId : String) (resp : OAuthTokenResponse)
    (hlong : 60 ≤ resp.expiresIn) :
    (get_token refresh now (store_token now st userId resp) userId).result =
      some (mkStoredToken now st.provider userId resp) ∧
    (mkStoredToken now st.provider userId resp).accessToken =
      resp.accessToken ∧
    (mkStoredToken now st.provider userId resp).refreshToken =
      resp.refreshToken := by
  refine ⟨?_, rfl, rfl⟩
  have hmem : dictGet (store_token now st userId resp).tokens
      (userId ++ ":" ++ (store_token now st userId resp).provider) =
      some (mkStoredToken now st.provider userId resp) :=
    store_token_lookup now st userId resp
  have hexp : (mkStoredToken now st.provider userId resp).expiresAt =
      some (now + resp.expiresIn) := rfl
  by_cases hz : now + resp.expiresIn = 0
  · rw [get_token_of_zero_expiry refresh now _ userId _ hmem
      (by rw [hexp, hz])]
  · rw [get_token_of_fresh refresh now _ userId _ (now + resp.expiresIn)
      hmem hexp (by omega)]

/-- Witness for C3 (amended) at a concrete response valid for 3600 seconds. -/
theorem c3_store_then_get_roundtrip_witness :
    (get_token (fun _ => .error ()) 0
        (store_token 0 (initServiceState "sketchfab") "u7"
          ⟨"ac7", "Bearer", 3600, some "rf7", some "read"⟩) "u7").result =
      some (mkStoredToken 0 (initServiceState "sketchfab").provider "u7"
        ⟨"ac7", "Bearer", 3600, some "rf7", some "read"⟩) ∧
    (mkStoredToken 0 (initServiceState "sketchfab").provider "u7"
        ⟨"ac7", "Bearer", 3600, some "rf7", some "read"⟩).accessToken =
      ((⟨"ac7", "Bearer", 3600, some "rf7", some "read"⟩ :
        OAuthTokenResponse)).accessToken ∧
    (mkStoredToken 0 (initServiceState "sketchfab").provider "u7"
        ⟨"ac7", "Bearer", 3600, some "rf7", some "read"⟩).refreshToken =
      ((⟨"ac7", "Bearer", 3600, some "rf7", some "read"⟩ :
        OAuthTokenResponse)).refreshToken :=
  c3_store_then_get_roundtrip (fun _ => .error ()) 0
    (initServiceState "sketchfab") "u7"
    ⟨"ac7", "Bearer", 3600, some "rf7", some "read"⟩ (by decide)

/-- C4: at every state reachable from a freshly constructed service by any
sequence of store/get/delete operations, the token store holds at most one
record per key (its keys are pairwise distinct), and `store_token` for an
existing key replaces the prior record entirely: an immediate lookup of the
key observes exactly the new record with all of its fields. -/
theorem c4_at_most_one_record_per_key :
    (∀ (provider : String) (ops : List ServiceOp),
      ((runOps (initServiceState provider) ops).tokens.map Prod.fst).Nodup) ∧
    (∀ (now : Int) (st : ServiceState) (userId : String)
        (resp : OAuthTokenResponse),
      dictGet (store_token now st userId resp).tokens
          (userId ++ ":" ++ st.provider) =
        some (mkStoredToken now st.provider userId resp)) := by
  constructor
  · intro p ops
    exact nodup_keys_runOps ops _ (by simp [initServiceState])
  · intro now st u resp
    exact store_token_lookup now st u resp

/-- C10: token storage is scoped to one service instance: a freshly
constructed instance has an empty token store, so `get_token` on it returns
none for every user id, performs no refresh call, and leaves the state
empty — regardless of what any other instance has stored. -/
theorem c10_fresh_instance_get_none (provider : String)
    (refresh : String → Except Unit OAuthTokenResponse) (now : Int)
    (userId : String) :
    get_token refresh now (initServiceState provider) userId =
      ⟨none, initServiceState provider, []⟩ :=
  get_token_of_absent refresh now (initServiceState provider) userId rfl

theorem dictContains_dictSet_self {α : Type} (l : List (String × α))
    (k : String) (v : α) : dictContains (dictSet l k v) k = true := by
  simp [dictContains, dictGet_dictSet_self]

theorem dictContains_dictDel_self {α : Type} (l : List (String × α))
    (k : String) : dictContains (dictDel l k) k = false := by
  simp [dictContains, dictGet_dictDel_self]

/-- C5: a registered PKCE verifier is resolvable at most once.  With real
(non-placeholder) Twitter credentials, for a state `s` registered with a
nonempty verifier `v` during authorization-URL generation, the first code
exchange that omits the code verifier and supplies `s` pops the stored
verifier and uses it for its single provider call, after which the verifier
map no longer resolves `s`; a second such exchange raises the 400
`invalid_request` "Missing code_verifier" error, makes no provider call,
and does not yield the previously returned verifier. -/
theorem c5_verifier_single_use
    (cfg : AdapterConfig) (fetch : String → String → FetchOutcome)
    (now now2 : Int) (vs0 : List (String × String)) (s v code code2 : String)
    (hcfg : twitterPlaceholder cfg = false) (hs : s ≠ "") (hv : v ≠ "") :
    (twitterExchange cfg fetch now (twitterRegister vs0 s v) code none
        (some s)).fetchCalls = [(code, v)] ∧
    (twitterExchange cfg fetch now (twitterRegister vs0 s v) code none
        (some s)).verifiers = dictDel (twitterRegister vs0 s v) s ∧
    dictGet (dictDel (twitterRegister vs0 s v) s) s = none ∧
    twitterExchange cfg fetch now2 (dictDel (twitterRegister vs0 s v) s)
        code2 none (some s) =
      ⟨.error missingVerifierError, dictDel (twitterRegister vs0 s v) s,
        []⟩ := by
  have hmem : dictGet (twitterRegister vs0 s v) s = some v :=
    dictGet_dictSet_self vs0 s v
  have hcont : dictContains (twitterRegister vs0 s v) s = true := by
    simp [dictContains, hmem]
  have hsb : (s != "") = true := by simp [hs]
  have hcont2 : dictContains (dictDel (twitterRegister vs0 s v) s) s = false :=
    dictContains_dictDel_self _ s
  refine ⟨?_, ?_, dictGet_dictDel_self _ s, ?_⟩
  · simp only [twitterExchange, hcfg, Bool.false_eq_true, if_false,
      strTruthy, Bool.not_false, if_true, hsb, hcont, Bool.and_self, hmem,
      if_neg hv]
    rcases hf : fetch code v with e | d
    · simp
    · rcases ht : twitterTokenOf d none with u | tok <;> simp [ht]
  · simp only [twitterExchange, hcfg, Bool.false_eq_true, if_false,
      strTruthy, Bool.not_false, if_true, hsb, hcont, Bool.and_self, hmem,
      if_neg hv]
    rcases hf : fetch code v with e | d
    · simp
    · rcases ht : twitterTokenOf d none with u | tok <;> simp [ht]
  · simp only [twitterExchange, hcfg, Bool.false_eq_true, if_false,
      strTruthy, Bool.not_false, if_true, hsb, hcont2, Bool.and_false]

/-- Witness for C5 at concrete credentials, registration and oracles. -/
theorem c5_verifier_single_use_witness :
    (twitterExchange ⟨"real_client_id"⟩
        (fun _ _ => .ok (.obj [("access_token", .str "at1"),
          ("token_type", .str "bearer")])) 0
        (twitterRegister [] "state1" "verifier1") "codeA" none
        (some "state1")).fetchCalls = [("codeA", "verifier1")] ∧
    (twitterExchange ⟨"real_client_id"⟩
        (fun _ _ => .ok (.obj [("access_token", .str "at1"),
          ("token_type", .str "bearer")])) 0
        (twitterRegister [] "state1" "verifier1") "codeA" none
        (some "state1")).verifiers =
      dictDel (twitterRegister [] "state1" "verifier1") "state1" ∧
    dictGet (dictDel (twitterRegister [] "state1" "verifier1") "state1")
      "state1" = none ∧
    twitterExchange ⟨"real_client_id"⟩
        (fun _ _ => .ok (.obj [("access_token", .str "at1"),
          ("token_type", .str "bearer")])) 1
        (dictDel (twitterRegister [] "state1" "verifier1") "state1") "codeB"
        none (some "state1") =
      ⟨.error missingVerifierError,
        dictDel (twitterRegister [] "state1" "verifier1") "state1", []⟩ :=
  c5_verifier_single_use ⟨"real_client_id"⟩
    (fun _ _ => .ok (.obj [("access_token", .str "at1"),
      ("token_type", .str "bearer")])) 0 1 [] "state1" "verifier1" "codeA"
    "codeB" (by decide) (by decide) (by decide)

/-- C6: with real (non-placeholder) Twitter credentials, for every
authorization code and every state value for which no verifier is
registered, a code exchange with that state and no code-verifier argument
fails with the 400 `invalid_request` "Missing code_verifier" client error,
makes no provider call, and leaves the verifier map unchanged — neither a
provider-side error nor a successful token response. -/
theorem c6_unregistered_state_client_error
    (cfg : AdapterConfig) (fetch : String → String → FetchOutcome)
    (now : Int) (vs : List (String × String)) (code s : String)
    (hcfg : twitterPlaceholder cfg = false)
    (hnc : dictContains vs s = false) :
    twitterExchange cfg fetch now vs code none (some s) =
      ⟨.error missingVerifierError, vs, []⟩ := by
  simp only [twitterExchange, hcfg, Bool.false_eq_true, if_false, strTruthy,
    Bool.not_false, if_true, hnc, Bool.and_false]

/-- Witness for C6 at concrete credentials and an empty verifier map. -/
theorem c6_unregistered_state_client_error_witness :
    twitterExchange ⟨"real_client_id"⟩ (fun _ _ => .error "boom") 0 []
        "codeA" none (some "stale_state") =
      ⟨.error missingVerifierError, [], []⟩ :=
  c6_unregistered_state_client_error ⟨"real_client_id"⟩
    (fun _ _ => .error "boom") 0 [] "codeA" "stale_state" (by decide)
    (by decide)

theorem getD_of_pred {α : Type} (P : α → Prop) (l : List α) (n : Nat) (d : α)
    (hl : ∀ c ∈ l, P c) (hd : P d) : P (l.getD n d) := by
  induction l generalizing n with
  | nil => simpa [List.getD] using hd
  | cons x xs ih =>
    cases n with
    | zero => exact hl x (List.mem_cons_self x xs)
    | succ m =>
      exact ih m (fun c hc => hl c (List.mem_cons_of_mem x hc))

theorem b64Char_ne_pad (n : Nat) : (b64Char n != '=') = true := by
  have h : b64Char n ≠ '=' := by
    apply getD_of_pred (fun c => c ≠ '=') b64Alphabet n 'A'
    · decide
    · decide
  simpa using h

theorem b64Groups_filter_pad (bs : List Nat) :
    (b64Groups bs).filter (fun c => c != '=') = b64GroupsNoPad bs := by
  induction bs using b64Groups.induct with
  | case1 a b c rest ih =>
    simp [b64Groups, b64GroupsNoPad, List.filter, b64Char_ne_pad, ih]
  | case2 a b =>
    simp [b64Groups, b64GroupsNoPad, List.filter, b64Char_ne_pad]
  | case3 a =>
    simp [b64Groups, b64GroupsNoPad, List.filter, b64Char_ne_pad]
  | case4 =>
    simp [b64Groups, b64GroupsNoPad]

theorem stripEquals_urlsafeB64encode (bs : List Nat) :
    stripEquals (urlsafeB64encode bs) = String.mk (b64GroupsNoPad bs) := by
  show String.mk ((b64Groups bs).filter (fun c => c != '=')) =
    String.mk (b64GroupsNoPad bs)
  rw [b64Groups_filter_pad]

set_option maxRecDepth 10000 in
/-- C7: for every code verifier string, the generated code challenge equals
the URL-safe base64 encoding, with all padding removed, of the SHA-256
digest of the verifier (the spec's S256 formula stated without producing
padding at all); and on the RFC 7636 published example verifier the
challenge equals the RFC's published test-vector output. -/
theorem c7_code_challenge_s256 :
    (∀ v : String, generate_code_challenge v = specS256Challenge v) ∧
    generate_code_challenge "dBjftJeZ4CVP-mB92K27uhbUJU1p1r_wW1gFWFOEjXk" =
      "E9Melhoa2OwvFrEMTJguCHaoeK1t8URWbuGJSstw-cM" := by
  constructor
  · intro v
    exact stripEquals_urlsafeB64encode (sha256Bytes (utf8Bytes v))
  · decide

theorem handle_request_error_fst (r : HttpResponse) :
    (handle_request_error r).1 = r.status := by
  rcases hj : r.json with _ | j <;> simp [handle_request_error, hj]

/-- C8 counterexample: the claim fails as stated.  With real credentials,
a Google code exchange answered by a provider 503 raises an error whose
status code is the FIXED 400 (google.py line 113), not the provider's own
503 — the provider's status is discarded (only the body is kept). -/
theorem c8_google_fixed_status_counterexample :
    googleExchange ⟨"real_client_id"⟩ 0
        ⟨503, "server error body",
          some (.obj [("error", .str "server_error")])⟩ =
      .httpError ⟨400, .json (.obj [("error", .str "server_error")])⟩ ∧
    (400 : Nat) ≠ 503 := by
  refine ⟨rfl, by decide⟩

/-- C8 (amended): only the Sketchfab adapter propagates provider failures
verbatim: with real credentials, for every non-200 provider response, its
exchange, refresh and user-info operations each raise an error carrying the
provider's own status code and the provider's error body as parsed by
`handle_request_error` (falling back to an `unknown_error` dict built from
the raw text), from the operation's single un-retried request; the Google
and Twitter adapters instead raise fixed-400 errors. -/
theorem c8_sketchfab_provider_error_propagation
    (cfg : AdapterConfig) (now : Int) (r : HttpResponse) (rt : String)
    (hcfg : sketchfabPlaceholder cfg = false) (hs : r.status ≠ 200) :
    sketchfabExchange cfg now r =
      .httpError ⟨(handle_request_error r).1,
        .json (handle_request_error r).2⟩ ∧
    sketchfabRefresh cfg now r rt =
      .httpError ⟨(handle_request_error r).1,
        .json (handle_request_error r).2⟩ ∧
    sketchfabUserInfo cfg r =
      .httpError ⟨(handle_request_error r).1,
        .json (handle_request_error r).2⟩ ∧
    (handle_request_error r).1 = r.status := by
  have hsb : (r.status != 200) = true := by simpa using hs
  refine ⟨?_, ?_, ?_, handle_request_error_fst r⟩
  · simp only [sketchfabExchange, hcfg, Bool.false_eq_true, if_false, hsb,
      if_true]
  · simp only [sketchfabRefresh, hcfg, Bool.false_eq_true, if_false, hsb,
      if_true]
  · simp only [sketchfabUserInfo, hcfg, Bool.false_eq_true, if_false, hsb,
      if_true]

/-- Witness for C8 (amended) at a concrete 503 response with a JSON body. -/
theorem c8_sketchfab_provider_error_propagation_witness :
    sketchfabExchange ⟨"real_client_id"⟩ 0
        ⟨503, "oops", some (.obj [("error", .str "invalid_grant")])⟩ =
      .httpError ⟨(handle_request_error
          ⟨503, "oops", some (.obj [("error", .str "invalid_grant")])⟩).1,
        .json (handle_request_error
          ⟨503, "oops", some (.obj [("error", .str "invalid_grant")])⟩).2⟩ ∧
    sketchfabRefresh ⟨"real_client_id"⟩ 0
        ⟨503, "oops", some (.obj [("error", .str "invalid_grant")])⟩ "r0" =
      .httpError ⟨(handle_request_error
          ⟨503, "oops", some (.obj [("error", .str "invalid_grant")])⟩).1,
        .json (handle_request_error
          ⟨503, "oops", some (.obj [("error", .str "invalid_grant")])⟩).2⟩ ∧
    sketchfabUserInfo ⟨"real_client_id"⟩
        ⟨503, "oops", some (.obj [("error", .str "invalid_grant")])⟩ =
      .httpError ⟨(handle_request_error
          ⟨503, "oops", some (.obj [("error", .str "invalid_grant")])⟩).1,
        .json (handle_request_error
          ⟨503, "oops", some (.obj [("error", .str "invalid_grant")])⟩).2⟩ ∧
    (handle_request_error
        ⟨503, "oops", some (.obj [("error", .str "invalid_grant")])⟩).1 =
      (⟨503, "oops", some (.obj [("error", .str "invalid_grant")])⟩ :
        HttpResponse).status :=
  c8_sketchfab_provider_error_propagation ⟨"real_client_id"⟩ 0
    ⟨503, "oops", some (.obj [("error", .str "invalid_grant")])⟩ "r0"
    (by decide) (by decide)

/-- C9 counterexample: the claim fails as stated.  With real credentials,
the Sketchfab refresh on a 200 response that omits `refresh_token` returns
a normalized response whose `refresh_token` is `None` rather than the
original input "orig_rt" (sketchfab.py line 120 uses `.get` with no
default), orphaning the stored credential. -/
theorem c9_sketchfab_refresh_drop_counterexample :
    sketchfabRefresh ⟨"real_client_id"⟩ 0
        ⟨200, "body", some (.obj [("access_token", .str "newA"),
          ("token_type", .str "Bearer"), ("expires_in", .num 3600)])⟩
        "orig_rt" =
      .ok ⟨"newA", "Bearer", 3600, none, none⟩ ∧
    (none : Option String) ≠ some "orig_rt" := by
  refine ⟨rfl, by decide⟩

/-- C9 (amended): the Google and Twitter adapters keep the stored record
refreshable: with real credentials, every successful Google refresh returns
a normalized response whose `refresh_token` is the original input token
(Google never reissues one on refresh), and every successful Twitter
refresh whose provider token dict omits `refresh_token` returns the
original input token; the Sketchfab adapter does not. -/
theorem c9_google_twitter_refresh_reuse
    (gcfg tcfg : AdapterConfig) (now now2 : Int) (r : HttpResponse)
    (fetchRefresh : String → FetchOutcome) (rt rt2 : String)
    (hg : googlePlaceholder gcfg = false)
    (ht : twitterPlaceholder tcfg = false) :
    (∀ t : OAuthTokenResponse, googleRefresh gcfg now r rt = .ok t →
      t.refreshToken = some rt) ∧
    (∀ (d : Json) (t : OAuthTokenResponse), fetchRefresh rt2 = .ok d →
      jsonGetStr d "refresh_token" = none →
      twitterRefresh tcfg fetchRefresh now2 rt2 = .ok t →
      t.refreshToken = some rt2) := by
  constructor
  · intro t hok
    simp only [googleRefresh, hg, Bool.false_eq_true, if_false] at hok
    split at hok
    · split at hok <;> cases hok
    · split at hok
      · cases hok
      · split at hok
        · injection hok with h
          rw [← h]
        · cases hok
  · intro d t hfetch homit hok
    rcases ha : jsonGetStr d "access_token" with _ | at_
    · simp only [twitterRefresh, ht, Bool.false_eq_true, if_false, hfetch,
        twitterTokenOf, ha] at hok
      cases hok
    · rcases htt : jsonGetStr d "token_type" with _ | tt
      · simp only [twitterRefresh, ht, Bool.false_eq_true, if_false, hfetch,
          twitterTokenOf, ha, htt] at hok
        cases hok
      · simp only [twitterRefresh, ht, Bool.false_eq_true, if_false, hfetch,
          twitterTokenOf, ha, htt, homit] at hok
        injection hok with h
        rw [← h]

/-- Witness for C9 (amended) at concrete credentials and responses. -/
theorem c9_google_twitter_refresh_reuse_witness :
    (∀ t : OAuthTokenResponse,
      googleRefresh ⟨"gid"⟩ 0
          ⟨200, "b", some (.obj [("access_token", .str "ga"),
            ("token_type", .str "Bearer")])⟩ "R1" = .ok t →
      t.refreshToken = some "R1") ∧
    (∀ (d : Json) (t : OAuthTokenResponse),
      (fun (_ : String) =>
        (Except.ok (.obj [("access_token", .str "ta"),
          ("token_type", .str "bearer")]) : FetchOutcome)) "R2" = .ok d →
      jsonGetStr d "refresh_token" = none →
      twitterRefresh ⟨"tid"⟩
          (fun _ => .ok (.obj [("access_token", .str "ta"),
            ("token_type", .str "bearer")])) 1 "R2" = .ok t →
      t.refreshToken = some "R2") :=
  c9_google_twitter_refresh_reuse ⟨"gid"⟩ ⟨"tid"⟩ 0 1
    ⟨200, "b", some (.obj [("access_token", .str "ga"),
      ("token_type", .str "Bearer")])⟩
    (fun _ => .ok (.obj [("access_token", .str "ta"),
      ("token_type", .str "bearer")])) "R1" "R2" (by decide) (by decide)
